import Mathlib

/-!
Shallow embedding of `orangecontrib/example/autogluon_integration.py`
(the format adapter and the `AutoGluonWrapper` class) from the
orange3-example-addon repository, together with theorems settling the
frozen claims about it.

Modelling conventions:
* Orange `Timeseries` is a record of the fields the adapter reads:
  `time_variable`, `domain.class_var`, `time_values` (epoch seconds,
  rationals standing in for floats) and the target column `Y`
  (one-dimensional, the single scalar target; the defensive
  `flatten()` branch for a column vector is the identity in this view).
  The output-side fields produced by `Timeseries.from_numpy`
  (`domainAttrs`, `X`, `metas`) live in the same record with empty
  defaults.
* AutoGluon `TimeSeriesDataFrame` (`TSDF`) is a record of its
  (item_id, timestamp) MultiIndex levels, its data-column names and its
  row-major value matrix.  Crucially, `item_id` and `timestamp` are
  index levels of a `TimeSeriesDataFrame`, not data columns, so they do
  not appear in `.columns`; `reset_index()` turns them into the two
  leading columns of a plain frame.
* Python exceptions are an explicit error type; each `raise` site of
  the source (and of the pandas/Orange calls it makes) is one
  constructor.
* The external library (`TimeSeriesPredictor`) is a parameter: a record
  of the operations the wrapper calls, over opaque predictor and model
  types, so that theorems quantify over every possible behaviour of the
  external library.
-/

/-- The exceptions the embedded code can raise.  `missingTimeAttribute`
and `missingTargetAttribute` are the two `ValueError`s of
`convert_to_autogluon_format`; `notFitted` and `noDataForPrediction`
are the two `ValueError`s of `AutoGluonWrapper.predict`;
`indexOutOfRange` is the `IndexError` of `original_data.time_values[-1]`
on an empty series; `invalidDomainMeta` is the error Orange's `Domain`
raises when `metas=[None]`; `invalidColumnCount got expected` is the
`ValueError` Orange's `Table.from_numpy` raises when the width of `X`
differs from the number of domain attributes; `external msg` is any
exception raised inside the external AutoGluon library. -/
inductive PyError where
  | missingTimeAttribute
  | missingTargetAttribute
  | notFitted
  | noDataForPrediction
  | indexOutOfRange
  | invalidDomainMeta
  | invalidColumnCount (got expected : Nat)
  | external (msg : String)
deriving DecidableEq, Repr

/-- The fields of an Orange `Timeseries` that the adapter reads and
writes.  `time_values` are epoch seconds; `Y` is the scalar target
column.  `domainAttrs`, `X` and `metas` are the fields a reconstructed
forecast `Timeseries` carries (attribute names, value matrix, and the
single metadata column of epoch-second timestamps). -/
structure Timeseries where
  time_variable : Option String := none
  class_var : Option String := none
  time_values : List ℚ := []
  Y : List ℚ := []
  domainAttrs : List String := []
  X : List (List ℚ) := []
  metas : List Int := []
deriving DecidableEq, Repr

/-- AutoGluon `TimeSeriesDataFrame`: `itemIds` and `timestamps` are the
two MultiIndex levels (timestamps in nanoseconds since the epoch, as
`pandas` stores datetimes), `columns` are the data-column names (the
index levels are NOT among them), `values` is the row-major data
matrix aligned with `columns`. -/
structure TSDF where
  itemIds : List String := []
  timestamps : List Int := []
  columns : List String := []
  values : List (List ℚ) := []
deriving DecidableEq, Repr

/-- `pd.to_datetime(t, unit='s')`: a float number of epoch seconds
becomes a nanosecond-precision timestamp, rounded to the nearest
nanosecond, i.e. `⌊t·10⁹ + 1/2⌋`.  Writing `t = num/den` (with
`den > 0`), that is `⌊(2·num·10⁹ + den) / (2·den)⌋`, computed here
with integer floor division so that concrete inputs evaluate by
kernel reduction (the `Rat` field operations are `@[irreducible]`). -/
def secondsToNs (t : ℚ) : Int := Int.fdiv (2 * t.num * 10 ^ 9 + t.den) (2 * t.den)

/-- `convert_to_autogluon_format` (lines 8-50): checks the time
variable, then the class variable, then builds the panel frame with a
`timestamp` column (epoch seconds converted to datetimes), a `target`
column (the flattened `Y`), and the constant `item_id` column
`'item_1'`; `TimeSeriesDataFrame.from_data_frame` then moves `item_id`
and `timestamp` into the index, leaving `target` as the sole data
column. -/
def convert_to_autogluon_format (data : Timeseries) : Except PyError TSDF :=
  match data.time_variable with
  | none => .error .missingTimeAttribute
  | some _ =>
    match data.class_var with
    | none => .error .missingTargetAttribute
    | some _ =>
      .ok { itemIds := data.time_values.map (fun _ => "item_1")
            timestamps := data.time_values.map secondsToNs
            columns := ["target"]
            values := data.Y.map (fun y => [y]) }

/-- Column selection on the `reset_index()`-ed frame: look a data
column up by name in a row (used for `forecast_df[cols].values`;
every selected name is a data column of the original frame, so the
lookup always finds it and the default is never used). -/
def colValue (cols : List String) (row : List ℚ) (c : String) : ℚ :=
  (((cols.zip row).lookup c).getD 0)

/-- `convert_from_autogluon_forecast` (lines 52-98), statement by
statement in source order:
`forecast.reset_index()` (turns the index levels into the leading
columns `item_id`, `timestamp`);
`original_data.time_values[-1]` (raises `IndexError` on an empty
original — the value is otherwise unused);
one `ContinuousVariable` per entry of `forecast.columns` other than
`'timestamp'` and `'item_id'` (for a `TimeSeriesDataFrame` the filter
removes nothing, because those names are index levels, not columns);
`Domain(attrs, metas=[time_var])` (raises if the original has no time
variable);
`X = forecast_df[forecast.columns[2:]].values` — the selection slices
the ORIGINAL frame's column list positionally, dropping its first two
data columns;
timestamps back to epoch seconds by floor division of nanoseconds;
`Timeseries.from_numpy`, which raises when the width of `X` differs
from the number of attributes. -/
def convert_from_autogluon_forecast (forecast : TSDF) (original_data : Timeseries) :
    Except PyError Timeseries :=
  match original_data.time_values.getLast? with
  | none => .error .indexOutOfRange
  | some _ =>
    let attrs := forecast.columns.filter (fun c => c != "timestamp" && c != "item_id")
    match original_data.time_variable with
    | none => .error .invalidDomainMeta
    | some tv =>
      let selCols := forecast.columns.drop 2
      let X := forecast.values.map (fun row => selCols.map (colValue forecast.columns row))
      let metas := forecast.timestamps.map (fun ns => Int.fdiv ns (10 ^ 9))
      if selCols.length = attrs.length then
        .ok { time_variable := some tv
              class_var := none
              time_values := []
              Y := []
              domainAttrs := attrs
              X := X
              metas := metas }
      else
        .error (.invalidColumnCount selCols.length attrs.length)

/-- The round trip `convert_from_autogluon_forecast
(convert_to_autogluon_format s) s`, with exceptions propagated. -/
def roundTrip (s : Timeseries) : Except PyError Timeseries :=
  match convert_to_autogluon_format s with
  | .error e => .error e
  | .ok f => convert_from_autogluon_forecast f s

/-- The external AutoGluon library, abstracted: predictor construction
(`TimeSeriesPredictor(prediction_length=..., **kwargs)`), training
(`predictor.fit`, which mutates the predictor in place — modelled as
returning the trained predictor), forecasting (`predictor.predict`)
and sub-model lookup (`predictor.get_model`).  `P` is the opaque
predictor type, `M` the opaque sub-model type. -/
structure ExternalLib (P M : Type) where
  newPredictor : Nat → List (String × String) → P
  trainPredictor : P → TSDF → Except PyError P
  predictOn : P → TSDF → Except PyError TSDF
  getModel : P → String → Except PyError M

/-- The mutable state of an `AutoGluonWrapper` instance:
`prediction_length` and `kwargs` from `__init__`, plus the two
`None`-initialised slots `predictor` and `data`. -/
structure AutoGluonWrapper (P : Type) where
  prediction_length : Nat := 1
  kwargs : List (String × String) := []
  predictor : Option P := none
  data : Option Timeseries := none
deriving DecidableEq, Repr

/-- `AutoGluonWrapper.fit` (lines 110-128), preserving the source's
assignment order: convert first (an adapter error leaves the state
unchanged), then `self.data = data`, then `self.predictor =
TimeSeriesPredictor(...)`, then `self.predictor.fit(ag_data)` — so a
training failure propagates AFTER both slots were overwritten.
Returns the post-state together with the call's result (`ok ()` stands
for the Python `return self`). -/
def AutoGluonWrapper.fit {P M : Type} (lib : ExternalLib P M)
    (w : AutoGluonWrapper P) (data : Timeseries) :
    AutoGluonWrapper P × Except PyError Unit :=
  match convert_to_autogluon_format data with
  | .error e => (w, .error e)
  | .ok ag_data =>
    let w1 : AutoGluonWrapper P := { w with data := some data }
    let p0 := lib.newPredictor w.prediction_length w.kwargs
    let w2 : AutoGluonWrapper P := { w1 with predictor := some p0 }
    match lib.trainPredictor p0 ag_data with
    | .error e => (w2, .error e)
    | .ok p1 => ({ w2 with predictor := some p1 }, .ok ())

/-- The shared tail of `predict` and `get_fitted_values`: convert the
chosen series, run the external predictor, convert the forecast back
against that same series. -/
def AutoGluonWrapper.predictCore {P M : Type} (lib : ExternalLib P M)
    (p : P) (d : Timeseries) : Except PyError Timeseries :=
  match convert_to_autogluon_format d with
  | .error e => .error e
  | .ok ag_data =>
    match lib.predictOn p ag_data with
    | .error e => .error e
    | .ok preds => convert_from_autogluon_forecast preds d

/-- `AutoGluonWrapper.predict` (lines 130-159): raises `notFitted` when
`self.predictor is None`; with no argument falls back to the stored
training series, raising `noDataForPrediction` when that is also
`None`; otherwise runs the convert/predict/convert-back pipeline.
Assigns to no attribute, so the wrapper state is unchanged. -/
def AutoGluonWrapper.predict {P M : Type} (lib : ExternalLib P M)
    (w : AutoGluonWrapper P) (data : Option Timeseries) :
    Except PyError Timeseries :=
  match w.predictor with
  | none => .error .notFitted
  | some p =>
    match data with
    | some d => AutoGluonWrapper.predictCore lib p d
    | none =>
      match w.data with
      | none => .error .noDataForPrediction
      | some d => AutoGluonWrapper.predictCore lib p d

/-- `AutoGluonWrapper.get_model` (lines 161-177): returns `None` when
unfitted, otherwise a pass-through to the external
`predictor.get_model(model_name)` (whose exception, if any,
propagates). -/
def AutoGluonWrapper.get_model {P M : Type} (lib : ExternalLib P M)
    (w : AutoGluonWrapper P) (model_name : String) :
    Except PyError (Option M) :=
  match w.predictor with
  | none => .ok none
  | some p => Except.map some (lib.getModel p model_name)

/-- `AutoGluonWrapper.get_fitted_values` (lines 179-210): returns
`None` (without raising) when unfitted; substitutes the stored
training series when no argument is given and returns `None` when both
are absent; otherwise runs exactly the convert/predict/convert-back
pipeline of `predict`. -/
def AutoGluonWrapper.get_fitted_values {P M : Type} (lib : ExternalLib P M)
    (w : AutoGluonWrapper P) (data : Option Timeseries) :
    Except PyError (Option Timeseries) :=
  match w.predictor with
  | none => .ok none
  | some p =>
    match (match data with | none => w.data | some d => some d) with
    | none => .ok none
    | some d => Except.map some (AutoGluonWrapper.predictCore lib p d)

/-- The wrapper states reachable from `__init__` by any sequence of
method calls.  `predict`, `get_model` and `get_fitted_values` assign to
no attribute, so `fit` is the only state-changing call. -/
inductive AutoGluonWrapper.Reachable {P M : Type} (lib : ExternalLib P M) :
    AutoGluonWrapper P → Prop where
  | fresh (n : Nat) (kw : List (String × String)) :
      AutoGluonWrapper.Reachable lib
        { prediction_length := n, kwargs := kw, predictor := none, data := none }
  | fitStep {w : AutoGluonWrapper P} (s : Timeseries) :
      AutoGluonWrapper.Reachable lib w →
      AutoGluonWrapper.Reachable lib (AutoGluonWrapper.fit lib w s).1

deriving instance DecidableEq for Except

/-! ### Concrete fixtures used by witnesses and counterexamples -/

/-- A valid 3-row series: time attribute and scalar target both set. -/
def sSample : Timeseries :=
  { time_variable := some "time", class_var := some "target",
    time_values := [0, 1, 2], Y := [10, 11, 12] }

/-- A series whose time attribute is absent (target present). -/
def sNoTime : Timeseries :=
  { class_var := some "target", time_values := [0], Y := [1] }

/-- A series whose target attribute is absent (time present). -/
def sNoTarget : Timeseries :=
  { time_variable := some "time", time_values := [0], Y := [1] }

/-- A series with both the time and the target attribute absent. -/
def sNoBoth : Timeseries := {}

/-- The panel frame `convert_to_autogluon_format` produces for
`sSample`. -/
def tsdfSample : TSDF :=
  { itemIds := ["item_1", "item_1", "item_1"],
    timestamps := [0, 1000000000, 2000000000],
    columns := ["target"],
    values := [[10], [11], [12]] }

/-- A realistic AutoGluon forecast frame: a point-forecast column and
two quantile columns (identifier and timestamp live in the index). -/
def fcQuant : TSDF :=
  { itemIds := ["item_1"], timestamps := [3 * 10 ^ 9],
    columns := ["mean", "0.1", "0.9"], values := [[1, 2, 3]] }

/-! ### Claims C1, C4, C7, C8 — the format adapter -/

/-- Claim C1: the spec asserts that
`convert_from_autogluon_forecast (convert_to_autogluon_format s) s`
round-trips the target values of every valid non-empty series.  The
code instead raises on every such series: the attribute list is built
from `forecast.columns` minus the names `'timestamp'`/`'item_id'`
(which removes nothing, those are index levels), while `X` is taken
from `forecast.columns[2:]` (empty, since `'target'` is the only data
column), so `Timeseries.from_numpy` rejects a width-0 `X` against 1
attribute.  This theorem evaluates the code at the failing input. -/
theorem roundTrip_raises_invalid_column_count :
    roundTrip sSample = .error (.invalidColumnCount 0 1) := by decide

/-- Claim C4 (counterexample): the claim says a series whose target
attribute is not set fails with `MissingTargetAttribute` regardless of
the other fields; but when the time attribute is also absent the time
check fires first, so `MissingTimeAttribute` is raised instead. -/
theorem missing_target_reported_as_missing_time :
    convert_to_autogluon_format sNoBoth = .error .missingTimeAttribute ∧
    convert_to_autogluon_format sNoBoth ≠ .error .missingTargetAttribute := by
  decide

/-- Claim C4 (amended): a series without a time attribute fails with
`MissingTimeAttribute` regardless of the other fields; a series WITH a
time attribute but without a target attribute fails with
`MissingTargetAttribute`. -/
theorem convert_missing_attribute_errors (s : Timeseries) :
    (s.time_variable = none →
      convert_to_autogluon_format s = .error .missingTimeAttribute) ∧
    (s.time_variable ≠ none → s.class_var = none →
      convert_to_autogluon_format s = .error .missingTargetAttribute) := by
  constructor
  · intro h
    simp [convert_to_autogluon_format, h]
  · intro h1 h2
    cases htv : s.time_variable with
    | none => exact absurd htv h1
    | some tv => simp [convert_to_autogluon_format, htv, h2]

/-- Witness for `convert_missing_attribute_errors` at the two concrete
invalid series. -/
theorem convert_missing_attribute_errors_witness :
    convert_to_autogluon_format sNoTime = .error .missingTimeAttribute ∧
    convert_to_autogluon_format sNoTarget = .error .missingTargetAttribute :=
  ⟨(convert_missing_attribute_errors sNoTime).1 rfl,
   (convert_missing_attribute_errors sNoTarget).2 (by decide) rfl⟩

/-- Claim C7: the spec asserts `convert_from_autogluon_forecast` takes
the output value matrix from exactly the non-identifier,
non-timestamp forecast columns (one attribute each).  The code takes
it from `forecast.columns[2:]`, which positionally drops the first two
VALUE columns of a `TimeSeriesDataFrame` (identifier and timestamp are
index levels, absent from `.columns`), so for a forecast with a mean
and two quantile columns the attribute count is 3 but `X` has width 1
and `Timeseries.from_numpy` raises.  This theorem evaluates the code
at the failing input. -/
theorem from_forecast_raises_on_quantile_forecast :
    convert_from_autogluon_forecast fcQuant sSample =
      .error (.invalidColumnCount 1 3) := by decide

/-- Claim C8: every row of the panel frame produced by
`convert_to_autogluon_format` carries the fixed series-identifier
literal `'item_1'`; being a deterministic function of the input, the
identifier is also the same across all calls. -/
theorem panel_item_id_constant (s : Timeseries) (t : TSDF)
    (h : convert_to_autogluon_format s = .ok t) :
    ∀ x ∈ t.itemIds, x = "item_1" := by
  unfold convert_to_autogluon_format at h
  cases h1 : s.time_variable <;> rw [h1] at h
  · cases h
  · cases h2 : s.class_var <;> rw [h2] at h
    · cases h
    · injection h with h
      subst h
      intro x hx
      simp only [List.mem_map] at hx
      obtain ⟨_, _, hx⟩ := hx
      exact hx.symm

/-- Witness for `panel_item_id_constant` at the concrete valid
series. -/
theorem panel_item_id_constant_witness :
    tsdfSample.itemIds.headD "" = "item_1" :=
  panel_item_id_constant sSample tsdfSample (by decide)
    (tsdfSample.itemIds.headD "") (by decide)

/-! ### Wrapper fixtures -/

/-- An external library over `Nat` predictor/model handles whose
training succeeds (the trained predictor is `p + 1`), whose forecasts
are `fcQuant`, and whose sub-model registry knows only `"best"`. -/
def libOK : ExternalLib Nat Nat :=
  { newPredictor := fun _ _ => 0
    trainPredictor := fun p _ => .ok (p + 1)
    predictOn := fun _ _ => .ok fcQuant
    getModel := fun _ nm =>
      if nm = "best" then .ok 7 else .error (.external "Model not found") }

/-- An external library whose every call raises. -/
def libFail : ExternalLib Nat Nat :=
  { newPredictor := fun _ _ => 0
    trainPredictor := fun _ _ => .error (.external "training failed")
    predictOn := fun _ _ => .error (.external "prediction failed")
    getModel := fun _ _ => .error (.external "Model not found") }

/-- A freshly constructed wrapper: `AutoGluonWrapper(prediction_length=1)`. -/
def wFresh : AutoGluonWrapper Nat := {}

/-- The wrapper after a successful `fit(sSample)` against `libOK`. -/
def wFitted : AutoGluonWrapper Nat := (AutoGluonWrapper.fit libOK wFresh sSample).1

/-! ### Claims C2, C3, C5, C6, C9, C10 — the wrapper -/

/-- Claim C2 (counterexample): on a fresh wrapper whose external
training raises, `fit` does propagate the error, but the stored
predictor is NOT the same as before the failed call (it was `None` and
is now the freshly constructed predictor), and a subsequent `predict`
does not fail as unfitted. -/
theorem fit_failure_leaves_wrapper_fitted :
    (AutoGluonWrapper.fit libFail wFresh sSample).2 =
      .error (.external "training failed") ∧
    (AutoGluonWrapper.fit libFail wFresh sSample).1.predictor ≠ wFresh.predictor ∧
    AutoGluonWrapper.predict libFail (AutoGluonWrapper.fit libFail wFresh sSample).1
      none ≠ .error PyError.notFitted := by decide

/-- Claim C2 (amended): when external training raises, `fit`
propagates the exception, but only after `self.data` and
`self.predictor` were already reassigned: the post-state stores the
new training series and the freshly constructed (never-trained)
predictor, so the wrapper is not left in the unfitted state. -/
theorem fit_propagates_training_error {P M : Type} (lib : ExternalLib P M)
    (w : AutoGluonWrapper P) (s : Timeseries) (ag : TSDF) (e : PyError)
    (hc : convert_to_autogluon_format s = .ok ag)
    (ht : lib.trainPredictor (lib.newPredictor w.prediction_length w.kwargs) ag =
      .error e) :
    (AutoGluonWrapper.fit lib w s).2 = .error e ∧
    (AutoGluonWrapper.fit lib w s).1.data = some s ∧
    (AutoGluonWrapper.fit lib w s).1.predictor =
      some (lib.newPredictor w.prediction_length w.kwargs) := by
  simp [AutoGluonWrapper.fit, hc, ht]

/-- Witness for `fit_propagates_training_error` at the concrete
failing library. -/
theorem fit_propagates_training_error_witness :
    (AutoGluonWrapper.fit libFail wFresh sSample).2 =
      .error (.external "training failed") ∧
    (AutoGluonWrapper.fit libFail wFresh sSample).1.data = some sSample ∧
    (AutoGluonWrapper.fit libFail wFresh sSample).1.predictor = some 0 :=
  fit_propagates_training_error libFail wFresh sSample tsdfSample
    (.external "training failed") (by decide) (by decide)

/-- Claim C3 (counterexample): `get_fitted_values` on a never-fitted
wrapper returns `None` without raising, rather than failing with
`NotFitted` as the claim states. -/
theorem get_fitted_values_unfitted_returns_none :
    AutoGluonWrapper.get_fitted_values libOK wFresh none = .ok none ∧
    AutoGluonWrapper.get_fitted_values libOK wFresh none ≠
      .error PyError.notFitted := by decide

/-- Claim C3 (amended): on a wrapper on which `fit` has never been
called, and for every argument, `predict` fails with `NotFitted`,
while `get_fitted_values` silently returns `None` (no output, no
exception). -/
theorem unfitted_predict_raises_fitted_values_silent {P M : Type}
    (lib : ExternalLib P M) (w : AutoGluonWrapper P) (arg : Option Timeseries)
    (h : w.predictor = none) :
    AutoGluonWrapper.predict lib w arg = .error PyError.notFitted ∧
    AutoGluonWrapper.get_fitted_values lib w arg = .ok none := by
  simp [AutoGluonWrapper.predict, AutoGluonWrapper.get_fitted_values, h]

/-- Witness for `unfitted_predict_raises_fitted_values_silent` on a
fresh wrapper with an explicit series argument. -/
theorem unfitted_predict_raises_fitted_values_silent_witness :
    AutoGluonWrapper.predict libOK wFresh (some sSample) =
      .error PyError.notFitted ∧
    AutoGluonWrapper.get_fitted_values libOK wFresh (some sSample) = .ok none :=
  unfitted_predict_raises_fitted_values_silent libOK wFresh (some sSample) rfl

/-- Claim C5: on a fitted wrapper, `get_fitted_values` runs exactly the
pipeline of `predict` on the same argument (explicit series, or the
stored training series when no argument is given): it re-runs
prediction rather than computing in-sample fitted values.  The result
only differs by the `Optional` wrapping of `get_fitted_values`'s
return type. -/
theorem get_fitted_values_eq_predict {P M : Type} (lib : ExternalLib P M)
    (w : AutoGluonWrapper P) (p : P) (arg : Option Timeseries)
    (hp : w.predictor = some p) (hd : arg = none → w.data.isSome) :
    AutoGluonWrapper.get_fitted_values lib w arg =
      Except.map some (AutoGluonWrapper.predict lib w arg) := by
  cases arg with
  | some s =>
    simp [AutoGluonWrapper.get_fitted_values, AutoGluonWrapper.predict, hp]
  | none =>
    have hs := hd rfl
    cases hw : w.data with
    | none => rw [hw] at hs; simp at hs
    | some d =>
      simp [AutoGluonWrapper.get_fitted_values, AutoGluonWrapper.predict, hp, hw]

/-- Witness for `get_fitted_values_eq_predict` on the concrete fitted
wrapper with no argument. -/
theorem get_fitted_values_eq_predict_witness :
    AutoGluonWrapper.get_fitted_values libOK wFitted none =
      Except.map some (AutoGluonWrapper.predict libOK wFitted none) :=
  get_fitted_values_eq_predict libOK wFitted 1 none (by decide) (fun _ => by decide)

/-- Claim C6: after a successful `fit(s)`, `predict()` with no argument
equals `predict(s)`: the stored training series is reused. -/
theorem predict_default_uses_training_series {P M : Type} (lib : ExternalLib P M)
    (w w' : AutoGluonWrapper P) (s : Timeseries)
    (h : AutoGluonWrapper.fit lib w s = (w', .ok ())) :
    AutoGluonWrapper.predict lib w' none = AutoGluonWrapper.predict lib w' (some s) := by
  cases hc : convert_to_autogluon_format s with
  | error e => simp only [AutoGluonWrapper.fit, hc] at h; simp at h
  | ok ag =>
    simp only [AutoGluonWrapper.fit, hc] at h
    cases ht : lib.trainPredictor (lib.newPredictor w.prediction_length w.kwargs) ag with
    | error e => rw [ht] at h; simp at h
    | ok p1 =>
      rw [ht] at h
      injection h with h1 h2
      subst h1
      simp [AutoGluonWrapper.predict]

/-- Witness for `predict_default_uses_training_series` after the
concrete successful fit. -/
theorem predict_default_uses_training_series_witness :
    AutoGluonWrapper.predict libOK wFitted none =
      AutoGluonWrapper.predict libOK wFitted (some sSample) :=
  predict_default_uses_training_series libOK wFresh wFitted sSample (by decide)

/-- Claim C9: `get_model` returns `None` whenever the wrapper is
unfitted; on a fitted wrapper it is a pass-through into the external
predictor's sub-model registry, and in particular an external
not-found error surfaces unchanged instead of a silent default. -/
theorem get_model_passthrough {P M : Type} (lib : ExternalLib P M)
    (w : AutoGluonWrapper P) (nm : String) :
    (w.predictor = none → AutoGluonWrapper.get_model lib w nm = .ok none) ∧
    (∀ p, w.predictor = some p →
      AutoGluonWrapper.get_model lib w nm = Except.map some (lib.getModel p nm)) ∧
    (∀ p e, w.predictor = some p → lib.getModel p nm = .error e →
      AutoGluonWrapper.get_model lib w nm = .error e) := by
  refine ⟨fun h => ?_, fun p h => ?_, fun p e h hm => ?_⟩
  · simp [AutoGluonWrapper.get_model, h]
  · simp [AutoGluonWrapper.get_model, h]
  · simp [AutoGluonWrapper.get_model, h, hm, Except.map]

/-- Witness for `get_model_passthrough`: unfitted lookup yields `None`;
a nonexistent name on the fitted wrapper surfaces the external
not-found error. -/
theorem get_model_passthrough_witness :
    AutoGluonWrapper.get_model libOK wFresh "nonexistent" = .ok none ∧
    AutoGluonWrapper.get_model libOK wFitted "nonexistent" =
      .error (.external "Model not found") :=
  ⟨(get_model_passthrough libOK wFresh "nonexistent").1 rfl,
   (get_model_passthrough libOK wFitted "nonexistent").2.2 1
     (.external "Model not found") (by decide) (by decide)⟩

/-- State invariant: in every reachable wrapper state, a stored
predictor implies stored training data, because `fit` assigns
`self.data` before constructing the predictor and an adapter failure
changes neither slot. -/
theorem reachable_predictor_implies_data {P M : Type} (lib : ExternalLib P M)
    (w : AutoGluonWrapper P) (h : AutoGluonWrapper.Reachable lib w) :
    w.predictor.isSome → w.data.isSome := by
  induction h with
  | fresh n kw => intro hp; simp at hp
  | fitStep s hw ih =>
    intro hp
    rename_i w1
    cases hc : convert_to_autogluon_format s with
    | error e =>
      simp only [AutoGluonWrapper.fit, hc] at hp ⊢
      exact ih hp
    | ok ag =>
      cases ht : lib.trainPredictor (lib.newPredictor w1.prediction_length w1.kwargs) ag with
      | error e => simp [AutoGluonWrapper.fit, hc, ht]
      | ok p1 => simp [AutoGluonWrapper.fit, hc, ht]

/-- Claim C10: in every reachable wrapper state with a stored
predictor, `predict` with no argument finds stored training data and
proceeds to the conversion/prediction pipeline — the
`noDataForPrediction` error branch is unreachable. -/
theorem predict_no_data_branch_unreachable {P M : Type} (lib : ExternalLib P M)
    (w : AutoGluonWrapper P) (h : AutoGluonWrapper.Reachable lib w)
    (p : P) (hp : w.predictor = some p) :
    ∃ d, w.data = some d ∧
      AutoGluonWrapper.predict lib w none = AutoGluonWrapper.predictCore lib p d := by
  have hd := reachable_predictor_implies_data lib w h (by simp [hp])
  cases hw : w.data with
  | none => rw [hw] at hd; simp at hd
  | some d =>
    exact ⟨d, rfl, by simp [AutoGluonWrapper.predict, hp, hw]⟩

/-- Witness for `predict_no_data_branch_unreachable` at the reachable
state after one successful fit. -/
theorem predict_no_data_branch_unreachable_witness :
    ∃ d, wFitted.data = some d ∧
      AutoGluonWrapper.predict libOK wFitted none =
        AutoGluonWrapper.predictCore libOK 1 d :=
  predict_no_data_branch_unreachable libOK wFitted
    (AutoGluonWrapper.Reachable.fitStep sSample
      (AutoGluonWrapper.Reachable.fresh 1 []))
    1 (by decide)
